import Mathlib

/-!
Verification development for the Sveti AI-tutor client.

The definitions below are a shallow embedding of the repository's core
client logic: the conversation store (load / save / clear over browser
key-value storage), the personalization gate inside `sendMessage`, the
game-preference parsing of `useGamePrefs`, and the prompt composition.
JavaScript strings are embedded as Lean `String`s, machine `Date` values
as explicit calendar components, browser storage as a partial map from
keys to stored values, and the completion endpoint as an oracle function
supplied in an environment record.
-/

namespace Sveti

/-! ## JavaScript string primitives -/

/-- Character class of the JavaScript whitespace characters relevant to
`String.prototype.trim` for the ASCII inputs of this app. -/
def isJsSpace (c : Char) : Bool :=
  c = ' ' || c = '\t' || c = '\n' || c = '\r' || c = '\x0b' || c = '\x0c'

/-- Character-list version of `String.prototype.trim`: drop whitespace from
both ends. -/
def trimChars (l : List Char) : List Char :=
  ((l.dropWhile isJsSpace).reverse.dropWhile isJsSpace).reverse

/-- Embedding of JavaScript `s.trim()`. -/
def jsTrim (s : String) : String := String.mk (trimChars s.data)

/-- Embedding of JavaScript `s.includes(sub)`. -/
def jsIncludes (s sub : String) : Bool := decide (sub.data <:+: s.data)

/-- Embedding of JavaScript `s.toLowerCase()` for the ASCII alphabet. -/
def jsToLower (s : String) : String := String.mk (s.data.map Char.toLower)

/-- Word character of the regular-expression class `\w`: `[A-Za-z0-9_]`. -/
def isWordChar (c : Char) : Bool := c.isAlphanum || c = '_'

/-- A position is at a word boundary against a neighbouring character when
that neighbour is absent or not a word character. -/
def boundaryB : Option Char → Bool
  | none => true
  | some c => !isWordChar c

/-- The negation tokens of the regex `\b(no|none|not|nah|nope)\b` in
`parseGamesFromText`. -/
def negTokens : List (List Char) :=
  [['n','o'], ['n','o','n','e'], ['n','o','t'], ['n','a','h'], ['n','o','p','e']]

/-- Scan for a whole-word occurrence of a negation token; `prev` is the
character just before the current position. -/
def scanNeg (prev : Option Char) : List Char → Bool
  | [] => false
  | c :: cs =>
    (negTokens.any fun t =>
      t.isPrefixOf (c :: cs) && boundaryB prev && boundaryB (((c :: cs).drop t.length).head?))
    || scanNeg (some c) cs

/-- Embedding of `/\b(no|none|not|nah|nope)\b/.test(lowered)`. -/
def hasNegation (lowered : String) : Bool := scanNeg none lowered.data

/-- Does the list start with `" and "`, matching the letters
case-insensitively as the `/i` flag of the split regex does? -/
def isAndSep : List Char → Bool
  | ' ' :: a :: n :: d :: ' ' :: _ => a.toLower = 'a' && n.toLower = 'n' && d.toLower = 'd'
  | _ => false

/-- Embedding of `text.split(/,| and /i)` as a scan over the characters;
`acc` holds the current field reversed, and the fuel (initially the text
length, never exhausted) keeps the recursion structural. -/
def splitGamesAux : Nat → List Char → List Char → List (List Char)
  | _, [], acc => [acc.reverse]
  | 0, _ :: _, acc => [acc.reverse]
  | fuel + 1, c :: cs, acc =>
    if c = ',' then acc.reverse :: splitGamesAux fuel cs []
    else if isAndSep (c :: cs) then acc.reverse :: splitGamesAux fuel (cs.drop 4) []
    else splitGamesAux fuel cs (c :: acc)

/-- Split a string on `","` or the word `" and "`. -/
def splitGames (l : List Char) : List (List Char) := splitGamesAux l.length l []

/-! ## Game-preference parsing (`useGamePrefs.js`) -/

/-- Embedding of `parseGamesFromText` from `useGamePrefs.js`: empty text
gives no labels; a whole-word negation token gives no labels; otherwise
split by commas or the word "and", trim, drop blanks and keep at most 2. -/
def parseGamesFromText (text : String) : List String :=
  if text = "" then []
  else if hasNegation (jsToLower text) then []
  else ((((splitGames text.data).map fun cs => jsTrim (String.mk cs)).filter
          fun s => s ≠ "").take 2)

/-- Deduplication scan keeping first occurrences; `seen` holds the
elements already emitted. -/
def dedupKeepFirstAux (seen : List String) : List String → List String
  | [] => []
  | x :: xs =>
    if x ∈ seen then dedupKeepFirstAux seen xs
    else x :: dedupKeepFirstAux (x :: seen) xs

/-- Order-preserving deduplication keeping the first occurrence, as
`Array.from(new Set(...))` does in JavaScript. -/
def dedupKeepFirst (l : List String) : List String := dedupKeepFirstAux [] l

/-- Value stored by `setGamePrefs`:
`Array.from(new Set((arr || []).map(s => s.trim()))).filter(Boolean).slice(0, 2)`. -/
def setGamePrefsVal (arr : List String) : List String :=
  ((dedupKeepFirst (arr.map jsTrim)).filter fun s => s ≠ "").take 2

/-- Patterns removed (case-insensitively) from a parsed game label for the
acknowledgment message: the regex `/i'?m|into|right now|playing/gi`. -/
def fillerPatterns : List (List Char) :=
  [['i', '\'', 'm'], ['i', 'm'], ['i','n','t','o'],
   ['r','i','g','h','t',' ','n','o','w'], ['p','l','a','y','i','n','g']]

/-- Case-insensitive prefix test: the pattern is lowercase and each text
character is lowered before comparison. -/
def ciStartsWith : List Char → List Char → Bool
  | [], _ => true
  | _ :: _, [] => false
  | p :: ps, c :: cs => p = c.toLower && ciStartsWith ps cs

/-- First filler pattern matching at the head of the text, with its length. -/
def matchFiller (l : List Char) : Option Nat :=
  fillerPatterns.findSome? fun p => if ciStartsWith p l then some p.length else none

/-- Global regex replacement of the filler patterns by the empty string,
with fuel bounded by the text length. -/
def replaceFillersAux : Nat → List Char → List Char
  | 0, _ => []
  | _, [] => []
  | fuel + 1, c :: cs =>
    match matchFiller (c :: cs) with
    | some k => replaceFillersAux fuel ((c :: cs).drop k)
    | none => c :: replaceFillersAux fuel cs

/-- Embedding of `g.replace(/i'?m|into|right now|playing/gi, "").trim()`. -/
def cleanGameLabel (g : String) : String :=
  jsTrim (String.mk (replaceFillersAux g.data.length g.data))

/-! ## Timestamps and the ISO-8601 round trip

A JavaScript `Date` is embedded as its calendar components; `toISOString`
renders `YYYY-MM-DDTHH:mm:ss.sssZ` and `new Date(isoText)` parses that
shape back. -/

structure Timestamp where
  year : Nat
  month : Nat
  day : Nat
  hour : Nat
  minute : Nat
  second : Nat
  millis : Nat
  deriving Repr, DecidableEq

/-- Component ranges of a date that `toISOString` renders with 4-digit
year, 2-digit month/day/hour/minute/second and 3-digit milliseconds. -/
def Timestamp.valid (t : Timestamp) : Prop :=
  t.year ≤ 9999 ∧ 1 ≤ t.month ∧ t.month ≤ 12 ∧ 1 ≤ t.day ∧ t.day ≤ 31 ∧
  t.hour ≤ 23 ∧ t.minute ≤ 59 ∧ t.second ≤ 59 ∧ t.millis ≤ 999

instance (t : Timestamp) : Decidable t.valid := by
  unfold Timestamp.valid; infer_instance

/-- The decimal digit character for `n % 10`. -/
def digitChar (n : Nat) : Char := Char.ofNat (48 + n % 10)

/-- Two-digit zero-padded decimal rendering. -/
def pad2 (n : Nat) : List Char := [digitChar (n / 10), digitChar n]

/-- Three-digit zero-padded decimal rendering. -/
def pad3 (n : Nat) : List Char := [digitChar (n / 100), digitChar (n / 10), digitChar n]

/-- Four-digit zero-padded decimal rendering. -/
def pad4 (n : Nat) : List Char :=
  [digitChar (n / 1000), digitChar (n / 100), digitChar (n / 10), digitChar n]

/-- Character list of `date.toISOString()`. -/
def toISOChars (t : Timestamp) : List Char :=
  pad4 t.year ++ '-' :: pad2 t.month ++ '-' :: pad2 t.day ++
  'T' :: pad2 t.hour ++ ':' :: pad2 t.minute ++ ':' :: pad2 t.second ++
  '.' :: pad3 t.millis ++ ['Z']

/-- Embedding of `date.toISOString()`. -/
def Timestamp.toISOText (t : Timestamp) : String := String.mk (toISOChars t)

/-- Numeric value of a decimal digit character. -/
def digitVal (c : Char) : Nat := c.toNat - 48

/-- Embedding of the `new Date(text)` parse of an ISO-8601 timestamp of the
exact shape produced by `toISOString`; any other shape yields `none`
(the JavaScript `Invalid Date`). -/
def parseISO (s : String) : Option Timestamp :=
  match s.data with
  | [y1, y2, y3, y4, s1, mo1, mo2, s2, da1, da2, s3, h1, h2, s4,
     mi1, mi2, s5, se1, se2, s6, ms1, ms2, ms3, s7] =>
    if s1 = '-' ∧ s2 = '-' ∧ s3 = 'T' ∧ s4 = ':' ∧ s5 = ':' ∧ s6 = '.' ∧ s7 = 'Z' ∧
       y1.isDigit ∧ y2.isDigit ∧ y3.isDigit ∧ y4.isDigit ∧
       mo1.isDigit ∧ mo2.isDigit ∧ da1.isDigit ∧ da2.isDigit ∧
       h1.isDigit ∧ h2.isDigit ∧ mi1.isDigit ∧ mi2.isDigit ∧
       se1.isDigit ∧ se2.isDigit ∧ ms1.isDigit ∧ ms2.isDigit ∧ ms3.isDigit then
      some { year := ((digitVal y1 * 10 + digitVal y2) * 10 + digitVal y3) * 10 + digitVal y4,
             month := digitVal mo1 * 10 + digitVal mo2,
             day := digitVal da1 * 10 + digitVal da2,
             hour := digitVal h1 * 10 + digitVal h2,
             minute := digitVal mi1 * 10 + digitVal mi2,
             second := digitVal se1 * 10 + digitVal se2,
             millis := (digitVal ms1 * 10 + digitVal ms2) * 10 + digitVal ms3 }
    else none
  | _ => none

/-- Fallback components standing for the JavaScript `Invalid Date`. -/
def invalidDate : Timestamp := ⟨0, 0, 0, 0, 0, 0, 0⟩

/-- Embedding of `new Date(text)` restricted to the app's stored strings. -/
def dateFromText (s : String) : Timestamp := (parseISO s).getD invalidDate

/-! ## Messages and the browser storage -/

/-- An in-memory chat message record. Optional JavaScript fields are
`Option`s; an absent `error` field is the `false` default. -/
structure Message where
  id : String
  role : String
  content : String
  timestamp : Timestamp
  actionType : Option String := none
  learningStyle : Option String := none
  model : Option String := none
  error : Bool := false
  deriving Repr, DecidableEq

/-- A message as persisted: the timestamp is ISO-8601 text. -/
structure StoredMessage where
  id : String
  role : String
  content : String
  timestamp : String
  actionType : Option String := none
  learningStyle : Option String := none
  model : Option String := none
  error : Bool := false
  deriving Repr, DecidableEq

/-- Serialization of one message for storage
(`{ ...msg, timestamp: msg.timestamp.toISOString() }`). -/
def Message.toStored (m : Message) : StoredMessage :=
  { id := m.id, role := m.role, content := m.content,
    timestamp := m.timestamp.toISOText, actionType := m.actionType,
    learningStyle := m.learningStyle, model := m.model, error := m.error }

/-- Restoration of one message from storage
(`{ ...msg, timestamp: new Date(msg.timestamp) }`). -/
def StoredMessage.restore (m : StoredMessage) : Message :=
  { id := m.id, role := m.role, content := m.content,
    timestamp := dateFromText m.timestamp, actionType := m.actionType,
    learningStyle := m.learningStyle, model := m.model, error := m.error }

/-- What a storage entry can decode to after `JSON.parse`: an array of
message records, an array of strings, a plain string, or a parse failure. -/
inductive StoredVal where
  | vMsgs : List StoredMessage → StoredVal
  | vStrList : List String → StoredVal
  | vStr : String → StoredVal
  | vCorrupt : StoredVal
  deriving Repr, DecidableEq

/-- The browser key-value storage, keyed by strings. -/
def Store : Type := String → Option StoredVal

/-- Embedding of `localStorage.setItem`. -/
def Store.set (st : Store) (k : String) (v : StoredVal) : Store :=
  fun q => if q = k then some v else st q

/-- Embedding of `localStorage.removeItem`. -/
def Store.remove (st : Store) (k : String) : Store :=
  fun q => if q = k then none else st q

/-- A storage with no entries. -/
def Store.empty : Store := fun _ => none

/-- Per-subject storage key: `` `sveti-messages-${subj}` ``. -/
def storageKey (subj : String) : String := "sveti-messages-" ++ subj

/-- Storage key of the parsed game-preference array. -/
def prefsKey : String := "sveti-game-prefs"

/-- Storage key of the asked-once flag. -/
def askedKey : String := "sveti-game-asked"

/-- Storage key of the accepted/declined flag. -/
def prefersKey : String := "sveti-prefers-games"

/-! ## Prompt configuration (`prompts.js`, `learningStyles.js`,
`gameTemplates.js`) -/

/-- Base tutoring role for the `algebra` subject. -/
def algebraBase : String := "You are Sveti, a friendly and patient algebra tutor who genuinely cares about helping students learn and understand mathematics.\n\nTEACHING PHILOSOPHY:\n- Use the Socratic method: guide students with thoughtful questions rather than just giving answers\n- Break down complex problems into manageable, logical steps\n- Encourage students when they make any progress, no matter how small\n- If a student is stuck, provide hints and gentle nudges toward the solution\n- Use simple, clear language appropriate for high school students\n- When showing mathematical work, format it clearly with line breaks and proper notation\n- Celebrate understanding and \"aha!\" moments enthusiastically\n- Be encouraging and supportive, never condescending or impatient\n\nINTERACTION STYLE:\n- Start by understanding what the student already knows\n- Ask \"What do you think the first step might be?\" rather than jumping to solutions\n- Use encouraging phrases like \"Great thinking!\" \"You're on the right track!\" \"That's a good observation!\"\n- If they make errors, say things like \"I see your thinking, let me help you adjust that...\"\n- Connect abstract concepts to real-world examples when possible\n- Remind students that making mistakes is part of learning\n\nRemember: Your goal is to help them LEARN algebra, not just solve problems for them."

/-- Sub-instruction for the algebra `explain` action. -/
def algebraExplain : String := "Focus on explaining this concept in the simplest terms possible. Use everyday examples and analogies that a high school student can relate to. Break down any mathematical terminology into plain language. Ask the student what they already know about the topic before diving into explanations. Make the abstract concept concrete and understandable."

/-- Sub-instruction for the algebra `steps` action. -/
def algebraSteps : String := "Break down the solution into clear, logical steps. For each step, explain not just WHAT to do, but WHY we do it. Use proper mathematical formatting with line breaks between steps. After each step, check if the student understands before moving to the next one. Encourage them to try each step themselves when possible."

/-- Sub-instruction for the algebra `practice` action. -/
def algebraPractice : String := "Generate 3 practice problems that are similar to what we just worked on, but with varying levels of difficulty:\n- Problem 1: Slightly easier (to build confidence)\n- Problem 2: Same difficulty level\n- Problem 3: Slightly more challenging (to extend learning)\n\nFor each problem, provide the setup but let the student work through the solution. Be ready to guide them if they get stuck."

/-- Sub-instruction for the algebra `check` action. -/
def algebraCheck : String := "Carefully review the student's work with a supportive approach. Look for:\n- Correct mathematical reasoning and steps\n- Proper notation and formatting\n- Any computational errors\n- Understanding of underlying concepts\n\nIf you find errors, point them out gently with phrases like \"I notice something here that we can improve...\" or \"Let's take another look at this step together...\" Always explain why something is incorrect and guide them toward the right approach rather than just giving the correct answer."

/-- Base coaching role for the `ela` subject. -/
def elaBase : String := "You are Sveti, a supportive English writing coach dedicated to helping students become better writers and critical thinkers.\n\nCORE PRINCIPLES:\n- NEVER write full essays, paragraphs, or complete assignments for students\n- Guide students through the writing process: brainstorming → thesis development → outlining → evidence gathering → drafting → revision\n- Ask clarifying questions to help students discover their own ideas and voice\n- Suggest improvements and alternatives without rewriting their work\n- Teach fundamental writing principles: clear thesis statements, strong evidence, logical organization, engaging conclusions\n- Encourage their unique perspective and voice\n- Provide constructive, positive feedback that builds confidence\n\nTEACHING APPROACH:\n- Start by understanding their assignment and what they're passionate about\n- Help them narrow broad topics into focused, manageable thesis statements\n- Ask probing questions like \"What's your main argument?\" \"What evidence supports this?\" \"How does this connect to your thesis?\"\n- When they share their writing, respond with specific, actionable feedback\n- Celebrate good ideas, strong sentences, and clear thinking\n- Guide them to recognize their own strengths and areas for improvement\n\nFEEDBACK STYLE:\n- Point out what's working well first\n- Suggest improvements as opportunities: \"What if you tried...\" \"Consider strengthening this by...\"\n- Ask questions that lead them to solutions: \"How could you make this clearer?\" \"What example would support this point?\"\n- Encourage revision as a natural, valuable part of writing\n\nRemember: Your goal is to develop their writing skills and confidence, not to do their work for them."

/-- Sub-instruction for the ela `brainstorm` action. -/
def elaBrainstorm : String := "Help the student generate and organize ideas about their writing topic. Start by understanding their assignment requirements and what interests them most about the subject. Ask open-ended questions like:\n- \"What aspects of this topic fascinate you?\"\n- \"What's your initial reaction or opinion?\"\n- \"What questions do you have about this subject?\"\n\nGuide them to explore different angles, make connections between ideas, and identify what they're most passionate about writing. Help them see which ideas are strongest and most supportable with evidence."

/-- Sub-instruction for the ela `outline` action. -/
def elaOutline : String := "Work with the student to create a clear, logical structure for their writing. Help them:\n- Develop a focused thesis statement that makes a clear argument\n- Identify 3-4 main supporting points\n- Organize evidence and examples under each main point\n- Plan smooth transitions between ideas\n- Consider their introduction and conclusion strategies\n\nAsk guiding questions like \"What's your main argument?\" \"How does this point support your thesis?\" \"What's the strongest evidence for this claim?\" Guide them to see how ideas connect and flow logically."

/-- Sub-instruction for the ela `improve` action. -/
def elaImprove : String := "Provide specific, constructive suggestions for strengthening their writing. Focus on:\n- Clarity of ideas and arguments\n- Strength and relevance of evidence\n- Organization and flow between paragraphs\n- Sentence variety and word choice\n- Engagement and voice\n\nUse encouraging language like \"This idea has great potential - what if you developed it further by...\" or \"Your argument here is strong - consider supporting it with...\" Always explain WHY suggested changes would improve their writing."

/-- Sub-instruction for the ela `grammar` action. -/
def elaGrammar : String := "Help the student understand and correct grammar issues in an educational way. When you find errors:\n- Explain the grammar rule or principle involved\n- Show the correct version alongside the original\n- Provide a brief, clear explanation of why the correction improves the writing\n- Offer tips for avoiding similar errors in the future\n- Focus on the most important issues first (clarity, then correctness)\n\nRemember to praise what they're doing well grammatically, and frame corrections as opportunities to make their excellent ideas even clearer."

/-- A subject's prompt block: base role text and action sub-instructions. -/
structure SubjectPrompts where
  base : String
  actions : String → Option String

/-- Action lookup for the algebra subject. -/
def algebraActions (a : String) : Option String :=
  if a = "explain" then some algebraExplain
  else if a = "steps" then some algebraSteps
  else if a = "practice" then some algebraPractice
  else if a = "check" then some algebraCheck
  else none

/-- Action lookup for the ela subject. -/
def elaActions (a : String) : Option String :=
  if a = "brainstorm" then some elaBrainstorm
  else if a = "outline" then some elaOutline
  else if a = "improve" then some elaImprove
  else if a = "grammar" then some elaGrammar
  else none

/-- The `systemPrompts` object of `prompts.js`, as a keyed lookup. -/
def systemPrompts (subject : String) : Option SubjectPrompts :=
  if subject = "algebra" then some ⟨algebraBase, algebraActions⟩
  else if subject = "ela" then some ⟨elaBase, elaActions⟩
  else none

/-- Embedding of `getSystemPrompt(subject, actionType)`: unknown subjects
fall back to the algebra base; a truthy action with a matching entry
appends the special-instruction block. -/
def getSystemPrompt (subject : String) (actionType : Option String) : String :=
  match systemPrompts subject with
  | none => algebraBase
  | some sp =>
    match actionType with
    | none => sp.base
    | some a =>
      if a = "" then sp.base
      else
        match sp.actions a with
        | some act => sp.base ++ "\n\nSPECIAL INSTRUCTION FOR THIS INTERACTION:\n" ++ act
        | none => sp.base

/-- A learning-style configuration record. -/
structure LearningStyle where
  id : String
  name : String
  description : String
  promptModifier : String

/-- The `visual` style. -/
def visualStyle : LearningStyle :=
  ⟨"visual", "Visual", "Structured steps, tables, and clear formatting",
   "VISUAL approach: Use numbered steps, tables, headers, and clear formatting. Make content scannable."⟩

/-- The `reading` style. -/
def readingStyle : LearningStyle :=
  ⟨"reading", "Reading", "Detailed written explanations",
   "READING approach: Provide detailed, comprehensive explanations with clear definitions."⟩

/-- The `examples` style. -/
def examplesStyle : LearningStyle :=
  ⟨"examples", "Examples", "Multiple worked examples",
   "Teach through concrete, worked examples. DO NOT ask the student questions - just show examples directly.\n\nStructure your response:\n1. Brief concept explanation (1-2 sentences)\n2. Example 1 with full solution\n3. Example 2 with full solution\n4. Example 3 with full solution (if relevant)\n5. Offer practice problems\n\nStart immediately with examples. Do not ask \"What do you know?\" or \"Can you tell me?\" - just demonstrate with clear examples."⟩

/-- The `socratic` style. -/
def socraticStyle : LearningStyle :=
  ⟨"socratic", "Socratic", "Guided questions and discovery",
   "SOCRATIC approach: Guide through questions, not direct answers. Ask \"What happens if...?\""⟩

/-- The `analogies` style. -/
def analogiesStyle : LearningStyle :=
  ⟨"analogies", "Stories", "Real-world analogies and metaphors",
   "Explain using real-world analogies and stories. DO NOT ask the student questions first - just tell the story/analogy directly.\n\nStructure your response:\n1. Start with \"Think of it like this...\" or \"Imagine...\"\n2. Tell the analogy/story that explains the concept\n3. Connect it back to the actual topic\n4. Use everyday experiences they relate to\n\nDo not ask \"Have you ever...?\" and then answer it yourself. Just tell the story and make the connection. Be direct and engaging."⟩

/-- The `learningStyles` object of `learningStyles.js`, as a keyed lookup. -/
def learningStyles (k : String) : Option LearningStyle :=
  if k = "visual" then some visualStyle
  else if k = "reading" then some readingStyle
  else if k = "examples" then some examplesStyle
  else if k = "socratic" then some socraticStyle
  else if k = "analogies" then some analogiesStyle
  else none

/-- Embedding of `getLearningStylePrompt(styleKey)`: the style's modifier,
falling back to the visual modifier for unknown keys. -/
def getLearningStylePrompt (styleKey : String) : String :=
  match learningStyles styleKey with
  | some st => st.promptModifier
  | none => visualStyle.promptModifier

/-- Topic keys produced by the keyword scan of the latest user message. -/
inductive TopicKey where
  | percentChange
  | ratios
  | linearEq
  deriving Repr, DecidableEq

/-- The `GAME_TEMPLATES` entries of `gameTemplates.js`. -/
def gameTemplate : TopicKey → String → String
  | .percentChange, game => "Use a " ++ game ++ " marketplace example: an item price changes from P_before to P_after. Ask the student to compute the percent increase/decrease and show steps."
  | .ratios, game => "Use a " ++ game ++ " context with resources or items in two groups (A:B). Ask the student to simplify the ratio and solve a proportional question."
  | .linearEq, game => "Use a " ++ game ++ " progression example: total points follow y = m*x + b. Ask the student to identify m and b, then evaluate for a given x."

/-- Embedding of `pickGameForContext`: the first preference, if any. -/
def pickGameForContext (gamePrefs : List String) : Option String := gamePrefs.head?

/-- The quick topic detector of `sendMessage` applied to the lowered latest
user text. -/
def detectTopic (userText : String) : Option TopicKey :=
  if jsIncludes userText "%" || jsIncludes userText "percent" || jsIncludes userText "discount" then
    some .percentChange
  else if jsIncludes userText "ratio" || jsIncludes userText "proportion" then
    some .ratios
  else if jsIncludes userText "linear" || jsIncludes userText "slope" || jsIncludes userText "y=" then
    some .linearEq
  else none

/-- Modelled from the spec: `buildSystemWithGames` is imported from
`../config/prompts` by both gate variants but its definition is not among
the sources. Per §4.3 of the specification, when a resolved preference is
available it appends a short personalization clause naming the first
preference, and when the keyword scan found a topic it appends the
topic-specific game template applied to that preference. -/
def buildSystemWithGames (base : String) (_stylePrompt : String)
    (gamePrefs : List String) (topicKey : Option TopicKey) : String :=
  match pickGameForContext gamePrefs with
  | none => base
  | some game =>
    let personalization :=
      "\n\nPERSONALIZATION CONTEXT:\nThe student enjoys " ++ game ++
      "; use it to frame example problems when natural."
    let topicPart :=
      match topicKey with
      | some k => "\n\n" ++ gameTemplate k game
      | none => ""
    base ++ personalization ++ topicPart

/-- System-instruction composition of the fixed gate variant: base role
plus action, teaching-style block, optional game personalization and
topic template keyed off the latest user text. -/
def composeSystemContentFixed (subject : String) (actionType : Option String)
    (learningStyle : String) (gamePrefs : List String) (latestText : String) : String :=
  let basePrompt := getSystemPrompt subject actionType
  let stylePrompt := getLearningStylePrompt learningStyle
  let baseSystemPrompt := basePrompt ++ "\n\nTEACHING STYLE:\n" ++ stylePrompt
  buildSystemWithGames baseSystemPrompt stylePrompt gamePrefs (detectTopic (jsToLower latestText))

/-! ## The chat hook state and the send operation -/

/-- A role-tagged message of a completion request. -/
structure ApiMessage where
  role : String
  content : String
  deriving Repr, DecidableEq

/-- A completion response: `{content, error}` where exactly one side is
meaningful; JavaScript truthiness decides which branch runs. -/
structure CompletionResp where
  content : Option String
  error : Option String
  deriving Repr, DecidableEq

/-- JavaScript truthiness of an optional string: present and non-empty. -/
def optTruthy : Option String → Bool
  | none => false
  | some s => s ≠ ""

/-- The in-memory state of a chat hook instance: the per-subject message
sequence, the loading flag, and the personalization state of
`useGamePrefs`. `subject` and `learningStyle` are the hook arguments. -/
structure ChatState where
  subject : String
  learningStyle : String
  messages : List Message
  isLoading : Bool
  gamePrefs : List String
  asked : Bool
  prefersGames : Option Bool
  deriving Repr, DecidableEq

/-- Ambient inputs of one send: the clock, the generated ids and the
completion endpoint as an oracle. -/
structure Env where
  now : Timestamp
  userId : String
  replyId : String
  aiId : String
  completion : List ApiMessage → CompletionResp

/-- Result of a send: the quiescent state once pending appends have
landed, whether the completion endpoint was invoked, and the request
sent to it if so. -/
structure SendOutcome where
  state : ChatState
  completionCalled : Bool
  apiRequest : Option (List ApiMessage)
  deriving Repr, DecidableEq

/-- Last `n` elements, as JavaScript `slice(-n)` for positive `n`. -/
def sliceLast (n : Nat) (l : List α) : List α := l.drop (l.length - n)

/-- Projection of a stored message into a completion-request message. -/
def Message.toApi (m : Message) : ApiMessage := ⟨m.role, m.content⟩

/-- The clarifying question injected by the personalization gate. -/
def gameAskText : String :=
  "Quick check: are you into any video games? If yes, name one or two. If not, just say 'no'."

/-- The user message record appended for a submitted text. -/
def userMsgOf (env : Env) (content : String) : Message :=
  { id := env.userId, role := "user", content := jsTrim content, timestamp := env.now }

/-- The clarifying-question assistant message record. -/
def askMsgOf (env : Env) : Message :=
  { id := env.replyId, role := "assistant", content := gameAskText, timestamp := env.now }

/-- The acknowledgment sent when game preferences were parsed. -/
def gameAckText (gamesToShow : String) : String :=
  "Got it — I'll use " ++ gamesToShow ++ " for examples. Want to try a practice problem?"

/-- The acknowledgment sent when the student declined. -/
def gameDeclineText : String :=
  "No problem — I'll stick to neutral examples. Want a practice problem?"

/-- The per-style fallback responses used when the completion import or
call fails in the fixed variant. -/
def fallbackResponse (learningStyle content subject : String) : String :=
  if learningStyle = "visual" then
    "[Visual Learning] Let me break this down step-by-step with clear formatting for \"" ++ content ++ "\" in " ++ subject ++ ". I'll organize this visually so it's easy to follow."
  else if learningStyle = "reading" then
    "[Reading/Writing] Here's a detailed written explanation for \"" ++ content ++ "\" in " ++ subject ++ ". Let me provide comprehensive information you can read through carefully."
  else if learningStyle = "examples" then
    "[Example-Based] Let me show you concrete examples for \"" ++ content ++ "\" in " ++ subject ++ ". I'll demonstrate this with practical illustrations."
  else if learningStyle = "socratic" then
    "[Socratic Method] Great question about \"" ++ content ++ "\" in " ++ subject ++ "! Let me guide you with some questions - what do you think might be the first step here?"
  else if learningStyle = "analogies" then
    "[Stories & Analogies] Let me explain \"" ++ content ++ "\" in " ++ subject ++ " using a real-world analogy. Think of it like this..."
  else
    "[Visual Learning] Let me break this down step-by-step with clear formatting for \"" ++ content ++ "\" in " ++ subject ++ ". I'll organize this visually so it's easy to follow."

/-- Embedding of `sendMessage` of the fixed gate variant
(`useRealChatFixed` in `part_001`, likewise the game-aware `useRealChat`):
blank or in-flight input is a no-op; otherwise the user message is
appended and the personalization gate either asks the clarifying
question, interprets the reply locally, or passes through to the
completion endpoint. -/
def sendMessageFixed (env : Env) (st : ChatState) (content : String)
    (actionType : Option String) : SendOutcome :=
  if jsTrim content = "" ∨ st.isLoading = true then
    { state := st, completionCalled := false, apiRequest := none }
  else
    let newUserMsg : Message := userMsgOf env content
    let nextMessages := st.messages ++ [newUserMsg]
    let userMessageCount := (nextMessages.filter fun m => m.role = "user").length
    if st.asked = false ∧ st.gamePrefs = [] ∧ 3 ≤ userMessageCount then
      { state := { st with messages := nextMessages ++ [askMsgOf env], asked := true },
        completionCalled := false, apiRequest := none }
    else if st.asked = true ∧ st.gamePrefs = [] then
      let parsed := parseGamesFromText newUserMsg.content
      if parsed ≠ [] then
        let newPrefs := setGamePrefsVal (parsed.take 2)
        let cleanGames := (parsed.map cleanGameLabel).filter fun s => s ≠ ""
        let gamesToShow :=
          if cleanGames ≠ [] then String.intercalate ", " cleanGames
          else String.intercalate ", " parsed
        let ackMsg : Message :=
          { id := env.replyId, role := "assistant", content := gameAckText gamesToShow,
            timestamp := env.now }
        { state := { st with
                     messages := nextMessages ++ [ackMsg]
                     gamePrefs := newPrefs
                     prefersGames := some true
                     isLoading := false },
          completionCalled := false, apiRequest := none }
      else
        let declineMsg : Message :=
          { id := env.replyId, role := "assistant", content := gameDeclineText,
            timestamp := env.now }
        { state := { st with
                     messages := nextMessages ++ [declineMsg]
                     prefersGames := some false
                     isLoading := false },
          completionCalled := false, apiRequest := none }
    else
      let systemContent :=
        composeSystemContentFixed st.subject actionType st.learningStyle st.gamePrefs
          newUserMsg.content
      let apiMessages : List ApiMessage :=
        ⟨"system", systemContent⟩ :: (sliceLast 10 nextMessages).map Message.toApi
      let response := env.completion apiMessages
      let aiContent :=
        if optTruthy response.content then (response.content.getD "")
        else fallbackResponse st.learningStyle content st.subject
      let aiMsg : Message :=
        { id := env.aiId, role := "assistant", content := aiContent, timestamp := env.now,
          learningStyle := some st.learningStyle, model := some "gpt-4o-mini" }
      { state := { st with messages := nextMessages ++ [aiMsg], isLoading := false },
        completionCalled := true, apiRequest := some apiMessages }

/-- Embedding of `getErrorMessage` of `useRealChat.js`: maps a raw error
text to one of five fixed user-facing category messages. -/
def getErrorMessage (error : String) : String :=
  if jsIncludes error "401" || jsIncludes error "Invalid API key" then
    "There seems to be an authentication issue."
  else if jsIncludes error "429" || jsIncludes error "rate limit" then
    "I need to slow down a bit due to high usage."
  else if jsIncludes error "500" || jsIncludes error "server" then
    "The AI service is temporarily unavailable."
  else if jsIncludes error "network" || jsIncludes error "connection" then
    "There seems to be a connection issue."
  else
    "Something unexpected happened."

/-- Embedding of `buildAPIMessages` of `useRealChat.js`: the combined
system message, then the last 10 non-system history messages, then the
new user content. -/
def buildAPIMessages (subject learningStyle : String) (messages : List Message)
    (newContent : String) (actionType : Option String) : List ApiMessage :=
  let baseSystemPrompt := getSystemPrompt subject actionType
  let learningStyleModifier := getLearningStylePrompt learningStyle
  let combinedSystemPrompt :=
    baseSystemPrompt ++
    "\n\n━━━━━━━━━━━━━━━━━━━━━━━━━━━━━━\nTEACHING STYLE ADAPTATION:\n" ++
    learningStyleModifier ++
    "\n\nApply this teaching style to all your explanations while maintaining your educational role.\n━━━━━━━━━━━━━━━━━━━━━━━━━━━━━━"
  ⟨"system", combinedSystemPrompt⟩ ::
    ((sliceLast 10 (messages.filter fun m => m.role ≠ "system")).map Message.toApi ++
     [⟨"user", newContent⟩])

/-- Embedding of `sendMessage` of `useRealChat.js`: no gate; blank input is
a no-op; otherwise the user message is appended and the completion
endpoint is always called, a failure response being mapped to a
category message. -/
def sendMessageReal (env : Env) (st : ChatState) (content : String)
    (actionType : Option String) : SendOutcome :=
  if jsTrim content = "" then
    { state := st, completionCalled := false, apiRequest := none }
  else
    let userMessage : Message := userMsgOf env content
    let apiMessages := buildAPIMessages st.subject st.learningStyle st.messages
      (jsTrim content) actionType
    let response := env.completion apiMessages
    let replyMsg : Message :=
      if optTruthy response.error then
        { id := env.aiId, role := "assistant",
          content := "I'm having trouble connecting right now. " ++
            getErrorMessage (response.error.getD "") ++
            " Let me try to help you anyway - could you rephrase your question?",
          timestamp := env.now }
      else
        { id := env.aiId, role := "assistant", content := response.content.getD "",
          timestamp := env.now }
    { state := { st with
                 messages := st.messages ++ [userMessage, replyMsg]
                 isLoading := false },
      completionCalled := true, apiRequest := some apiMessages }

/-- The completion request built by the fixed gate variant on a
pass-through: the composed system instruction, then the last 10
conversation messages including the just-appended user message. -/
def passRequest (env : Env) (st : ChatState) (content : String)
    (a : Option String) : List ApiMessage :=
  ⟨"system", composeSystemContentFixed st.subject a st.learningStyle st.gamePrefs
    (jsTrim content)⟩ ::
  (sliceLast 10 (st.messages ++ [userMsgOf env content])).map Message.toApi

/-- The assistant message appended by the fixed gate variant on a
pass-through: the completion text when truthy, else the per-style
fallback. -/
def passReply (env : Env) (st : ChatState) (content : String)
    (a : Option String) : Message :=
  let response := env.completion (passRequest env st content a)
  { id := env.aiId, role := "assistant",
    content := if optTruthy response.content then response.content.getD ""
      else fallbackResponse st.learningStyle content st.subject,
    timestamp := env.now, learningStyle := some st.learningStyle,
    model := some "gpt-4o-mini" }

/-- The category-message assistant record appended by `useRealChat.js`
when the completion endpoint reports a failure. Its `error` field is the
default `false`: `createMessage` sets no error flag. -/
def errReplyOf (env : Env) (err : String) : Message :=
  { id := env.aiId, role := "assistant",
    content := "I'm having trouble connecting right now. " ++ getErrorMessage err ++
      " Let me try to help you anyway - could you rephrase your question?",
    timestamp := env.now }

/-! ## Conversation-store persistence (`useRealChat.js`) -/

/-- Result of the `useRealChat.js` restore map applied to a JSON string
element: the object spread of a string carries none of the message
fields (embedded as the record defaults) and `new Date(undefined)` is an
invalid date; no exception is thrown. -/
def spreadStringMsg (_s : String) : Message :=
  { id := "", role := "", content := "", timestamp := invalidDate }

/-- Embedding of `loadMessagesForSubject`: an absent entry gives the
empty sequence; an entry parsing as a message array is restored; an
entry parsing as an array of plain strings is mapped without throwing,
giving field-less records and removing nothing; a non-array or
unparseable entry makes the map (or the parse) throw, and the catch path
removes the entry and gives the empty sequence. -/
def loadMessagesForSubject (subj : String) (store : Store) : List Message × Store :=
  match store (storageKey subj) with
  | none => ([], store)
  | some (.vMsgs l) => (l.map StoredMessage.restore, store)
  | some (.vStrList ss) => (ss.map spreadStringMsg, store)
  | some (.vStr _) => ([], store.remove (storageKey subj))
  | some .vCorrupt => ([], store.remove (storageKey subj))

/-- Embedding of `saveMessagesForSubject`: empty sequences are not written;
a storage failure (`fail = true`) is caught and leaves the store as it
was; otherwise the serialized sequence replaces the entry. -/
def saveMessagesForSubject (fail : Bool) (subj : String) (msgs : List Message)
    (store : Store) : Store :=
  if msgs.length = 0 then store
  else if fail then store
  else store.set (storageKey subj) (.vMsgs (msgs.map Message.toStored))

/-- Embedding of `clearMessages` of `useRealChat.js`: empty the in-memory
sequence and remove only the current subject's entry; a storage failure
is caught and leaves the store untouched. -/
def clearMessagesReal (fail : Bool) (subj : String) (store : Store) :
    List Message × Store :=
  ([], if fail then store else store.remove (storageKey subj))

/-- Embedding of `resetGamePrefs` of `useGamePrefs.js` on the storage side:
remove the three preference entries. -/
def resetGamePrefsStore (store : Store) : Store :=
  ((store.remove prefsKey).remove askedKey).remove prefersKey

/-- Embedding of `resetGamePrefs`: clears the three storage entries and
resets the in-memory preference state to its initial values. -/
def resetGamePrefs (store : Store) : (List String × Bool × Option Bool) × Store :=
  (([], false, none), resetGamePrefsStore store)

/-- Embedding of `setGamePrefs` of `useGamePrefs.js`: dedupe, drop blanks
and truncate to two before updating both state and storage. -/
def setGamePrefs (arr : List String) (store : Store) : List String × Store :=
  let deduped := setGamePrefsVal arr
  (deduped, store.set prefsKey (.vStrList deduped))

/-- Embedding of `clearMessages` of the fixed variant (`part_001`): empty
the sequence, remove the current subject's entry, remove both known
subjects' entries, and reset the game preferences in state and storage. -/
def clearMessagesFixed (st : ChatState) (store : Store) : ChatState × Store :=
  let store1 := store.remove (storageKey st.subject)
  let store2 := (store1.remove (storageKey "algebra")).remove (storageKey "english")
  let store3 := resetGamePrefsStore store2
  ({ st with messages := [], gamePrefs := [], asked := false, prefersGames := none },
   store3)

/-! ## Invariant predicates -/

/-- A string with no leading and no trailing JavaScript whitespace. -/
def noEdgeSpace (s : String) : Prop :=
  (∀ c, s.data.head? = some c → isJsSpace c = false) ∧
  (∀ c, s.data.getLast? = some c → isJsSpace c = false)

/-- Invariant of the stored preference list: at most two labels, each
trimmed and non-empty, with no duplicates. -/
def prefListInv (l : List String) : Prop :=
  l.length ≤ 2 ∧ l.Nodup ∧ ∀ s ∈ l, s ≠ "" ∧ noEdgeSpace s

/-! ## Concrete fixtures used by witnesses and counterexamples -/

/-- A sample valid timestamp. -/
def tsW : Timestamp := ⟨2025, 1, 2, 3, 4, 5, 6⟩

/-- A sample user-authored message. -/
def userFix (i c : String) : Message :=
  { id := i, role := "user", content := c, timestamp := tsW }

/-- A sample assistant-authored message. -/
def asstFix (i c : String) : Message :=
  { id := i, role := "assistant", content := c, timestamp := tsW }

/-- An environment whose completion endpoint succeeds. -/
def envOk : Env :=
  { now := tsW, userId := "u-id", replyId := "r-id", aiId := "a-id", completion := fun _ => { content := some "ok!", error := none } }

/-- An environment whose completion endpoint fails with a 401 error. -/
def envFail : Env :=
  { now := tsW, userId := "u-id", replyId := "r-id", aiId := "a-id", completion := fun _ => { content := none, error := some "Error 401: Invalid API key" } }

/-- A conversation about to receive its third user message, with the
personalization state unresolved. -/
def stGate : ChatState :=
  { subject := "algebra", learningStyle := "visual", messages := [userFix "1" "q1", asstFix "2" "a1", userFix "3" "q2"], isLoading := false, gamePrefs := [], asked := false, prefersGames := none }

/-- A conversation right after the clarifying question was asked. -/
def stReply : ChatState :=
  { subject := "algebra", learningStyle := "visual", messages := [userFix "1" "q1", asstFix "2" "a1", userFix "3" "q2", userFix "4" "q3", asstFix "5" gameAskText], isLoading := false, gamePrefs := [], asked := true, prefersGames := none }

/-- A resolved conversation whose history still holds the clarifying
question. -/
def stPass : ChatState :=
  { subject := "algebra", learningStyle := "visual", messages := [asstFix "c" gameAskText], isLoading := false, gamePrefs := ["Minecraft"], asked := true, prefersGames := some true }

/-- A second resolved conversation with the same composition inputs as
`stPass` but a different history and flags. -/
def stPassOther : ChatState :=
  { subject := "algebra", learningStyle := "visual", messages := [userFix "x" "something else entirely", asstFix "y" "reply", userFix "z" "more"], isLoading := false, gamePrefs := ["Minecraft"], asked := true, prefersGames := some true }

/-- A conversation with a completion request in flight. -/
def stInFlight : ChatState :=
  { subject := "algebra", learningStyle := "visual", messages := [userFix "1" "q1"], isLoading := true, gamePrefs := [], asked := false, prefersGames := none }

/-- An empty conversation in its initial state. -/
def stEmpty : ChatState :=
  { subject := "algebra", learningStyle := "visual", messages := [], isLoading := false, gamePrefs := [], asked := false, prefersGames := none }

/-- A storage holding entries for two subjects and one preference key. -/
def storeTwoSubjects : Store :=
  ((Store.empty.set (storageKey "algebra") (.vMsgs [])).set (storageKey "english") (.vMsgs [(userFix "1" "hi").toStored])).set prefsKey (.vStrList ["Minecraft"])

/-- A storage whose algebra entry does not parse as a message array. -/
def storeCorrupt : Store := Store.empty.set (storageKey "algebra") .vCorrupt

/-! ## Supporting lemmas: the ISO-8601 round trip -/

theorem digitChar_isDigit (n : Nat) : (digitChar n).isDigit = true := by
  unfold digitChar
  have h : n % 10 < 10 := Nat.mod_lt n (by norm_num)
  set k := n % 10 with hk
  interval_cases k <;> decide

theorem digitVal_digitChar (n : Nat) : digitVal (digitChar n) = n % 10 := by
  unfold digitChar digitVal
  have h : n % 10 < 10 := Nat.mod_lt n (by norm_num)
  set k := n % 10 with hk
  interval_cases k <;> decide

theorem digits2raw (n : Nat) (h : n ≤ 99) : n / 10 % 10 * 10 + n % 10 = n := by
  have e1 : n / 10 / 10 = n / 100 := by rw [Nat.div_div_eq_div_mul]
  omega

theorem digits3raw (n : Nat) (h : n ≤ 999) :
    (n / 100 % 10 * 10 + n / 10 % 10) * 10 + n % 10 = n := by
  have e1 : n / 10 / 10 = n / 100 := by rw [Nat.div_div_eq_div_mul]
  have e2 : n / 100 / 10 = n / 1000 := by rw [Nat.div_div_eq_div_mul]
  omega

theorem digits4raw (n : Nat) (h : n ≤ 9999) :
    ((n / 1000 % 10 * 10 + n / 100 % 10) * 10 + n / 10 % 10) * 10 + n % 10 = n := by
  have e1 : n / 10 / 10 = n / 100 := by rw [Nat.div_div_eq_div_mul]
  have e2 : n / 100 / 10 = n / 1000 := by rw [Nat.div_div_eq_div_mul]
  have e3 : n / 1000 / 10 = n / 10000 := by rw [Nat.div_div_eq_div_mul]
  omega

theorem parseISO_toISOText (t : Timestamp) (h : t.valid) :
    parseISO t.toISOText = some t := by
  obtain ⟨y, mo, d, hh, mi, se, ms⟩ := t
  simp only [Timestamp.valid] at h
  obtain ⟨hy, hmo1, hmo2, hd1, hd2, hhh, hmi, hse, hms⟩ := h
  simp only [Timestamp.toISOText, toISOChars, pad4, pad3, pad2, parseISO,
    List.cons_append, List.nil_append]
  simp only [digitChar_isDigit, digitVal_digitChar, and_true, true_and,
    and_self, if_true, reduceCtorEq, ite_true]
  simp only [Option.some.injEq, Timestamp.mk.injEq]
  exact ⟨digits4raw y hy, digits2raw mo (by omega), digits2raw d (by omega),
    digits2raw hh (by omega), digits2raw mi (by omega), digits2raw se (by omega),
    digits3raw ms (by omega)⟩

theorem restore_toStored (m : Message) (h : m.timestamp.valid) :
    m.toStored.restore = m := by
  unfold Message.toStored StoredMessage.restore dateFromText
  rw [parseISO_toISOText _ h]
  rfl

/-! ## Supporting lemmas: trimming, dedup and the parsed labels -/

theorem dropWhile_head_not (p : Char → Bool) :
    ∀ (l : List Char) (c : Char), (l.dropWhile p).head? = some c → p c = false := by
  intro l
  induction l with
  | nil => intro c h; simp [List.dropWhile] at h
  | cons a as ih =>
    intro c h
    rw [List.dropWhile_cons] at h
    by_cases hpa : p a
    · rw [if_pos hpa] at h
      exact ih c h
    · rw [if_neg hpa] at h
      simp only [List.head?_cons, Option.some.injEq] at h
      subst h
      simpa using hpa

theorem suffix_getLast?_eq {α : Type _} {l₁ l₂ : List α} (h : l₁ <:+ l₂) (hne : l₁ ≠ []) :
    l₁.getLast? = l₂.getLast? := by
  obtain ⟨pre, rfl⟩ := h
  exact (List.getLast?_append_of_ne_nil pre hne).symm

theorem trimChars_head_not (l : List Char) (c : Char)
    (h : (trimChars l).head? = some c) : isJsSpace c = false := by
  unfold trimChars at h
  rw [List.head?_reverse] at h
  have hsuff : (l.dropWhile isJsSpace).reverse.dropWhile isJsSpace <:+
      (l.dropWhile isJsSpace).reverse := List.dropWhile_suffix _
  have hne : (l.dropWhile isJsSpace).reverse.dropWhile isJsSpace ≠ [] := by
    intro he
    rw [he] at h
    simp at h
  rw [suffix_getLast?_eq hsuff hne, List.getLast?_reverse] at h
  exact dropWhile_head_not _ _ _ h

theorem trimChars_getLast_not (l : List Char) (c : Char)
    (h : (trimChars l).getLast? = some c) : isJsSpace c = false := by
  unfold trimChars at h
  rw [List.getLast?_reverse] at h
  exact dropWhile_head_not _ _ _ h

theorem jsTrim_noEdgeSpace (s : String) : noEdgeSpace (jsTrim s) := by
  constructor
  · intro c h
    exact trimChars_head_not s.data c h
  · intro c h
    exact trimChars_getLast_not s.data c h

theorem dedupKeepFirstAux_subset :
    ∀ (l seen : List String), ∀ a ∈ dedupKeepFirstAux seen l, a ∈ l := by
  intro l
  induction l with
  | nil => intro seen a ha; simp [dedupKeepFirstAux] at ha
  | cons x xs ih =>
    intro seen a ha
    rw [dedupKeepFirstAux] at ha
    by_cases hx : x ∈ seen
    · rw [if_pos hx] at ha
      exact List.mem_cons_of_mem x (ih seen a ha)
    · rw [if_neg hx, List.mem_cons] at ha
      rcases ha with rfl | ha
      · exact List.mem_cons_self a xs
      · exact List.mem_cons_of_mem x (ih (x :: seen) a ha)

theorem dedupKeepFirstAux_not_seen :
    ∀ (l seen : List String), ∀ a ∈ dedupKeepFirstAux seen l, a ∉ seen := by
  intro l
  induction l with
  | nil => intro seen a ha; simp [dedupKeepFirstAux] at ha
  | cons x xs ih =>
    intro seen a ha
    rw [dedupKeepFirstAux] at ha
    by_cases hx : x ∈ seen
    · rw [if_pos hx] at ha
      exact ih seen a ha
    · rw [if_neg hx, List.mem_cons] at ha
      rcases ha with rfl | ha
      · exact hx
      · intro hs
        exact ih (x :: seen) a ha (List.mem_cons_of_mem x hs)

theorem dedupKeepFirst_subset (l : List String) :
    ∀ a ∈ dedupKeepFirst l, a ∈ l :=
  dedupKeepFirstAux_subset l []

theorem dedupKeepFirstAux_nodup :
    ∀ (l seen : List String), (dedupKeepFirstAux seen l).Nodup := by
  intro l
  induction l with
  | nil => intro seen; simp [dedupKeepFirstAux]
  | cons x xs ih =>
    intro seen
    rw [dedupKeepFirstAux]
    by_cases hx : x ∈ seen
    · rw [if_pos hx]
      exact ih seen
    · rw [if_neg hx]
      refine List.nodup_cons.mpr ⟨?_, ih (x :: seen)⟩
      intro hmem
      exact dedupKeepFirstAux_not_seen xs (x :: seen) x hmem (List.mem_cons_self x seen)

theorem dedupKeepFirst_nodup (l : List String) : (dedupKeepFirst l).Nodup :=
  dedupKeepFirstAux_nodup l []

theorem setGamePrefsVal_inv (arr : List String) : prefListInv (setGamePrefsVal arr) := by
  unfold setGamePrefsVal prefListInv
  refine ⟨?_, ?_, ?_⟩
  · rw [List.length_take]
    exact min_le_left _ _
  · exact ((dedupKeepFirst_nodup _).filter _).sublist (List.take_sublist 2 _)
  · intro s hs
    have hs1 := List.mem_of_mem_take hs
    have hs2 := List.mem_filter.mp hs1
    have hs3 := dedupKeepFirst_subset _ s hs2.1
    obtain ⟨t, _, rfl⟩ := List.mem_map.mp hs3
    exact ⟨by simpa using hs2.2, jsTrim_noEdgeSpace t⟩

theorem parseGamesFromText_length (text : String) :
    (parseGamesFromText text).length ≤ 2 := by
  unfold parseGamesFromText
  split
  · simp
  · split
    · simp
    · rw [List.length_take]
      exact min_le_left _ _

theorem parseGamesFromText_mem_ne (text : String) :
    ∀ s ∈ parseGamesFromText text, s ≠ "" := by
  unfold parseGamesFromText
  split
  · simp
  · split
    · simp
    · intro s hs
      have hs1 := List.mem_of_mem_take hs
      have hs2 := List.mem_filter.mp hs1
      simpa using hs2.2

/-! ## Supporting lemmas: branch reductions of the gate send -/

theorem sendMessageFixed_ask (env : Env) (st : ChatState) (content : String)
    (a : Option String) (hc : jsTrim content ≠ "") (hl : st.isLoading = false)
    (ha : st.asked = false) (hg : st.gamePrefs = [])
    (hcount : 3 ≤ ((st.messages ++ [userMsgOf env content]).filter fun m =>
      m.role = "user").length) :
    sendMessageFixed env st content a =
      { state := { st with
          messages := st.messages ++ [userMsgOf env content, askMsgOf env]
          asked := true },
        completionCalled := false, apiRequest := none } := by
  simp only [sendMessageFixed]
  rw [if_neg (by simp [hc, hl]), if_pos ⟨ha, hg, hcount⟩]
  simp

theorem sendMessageFixed_accept (env : Env) (st : ChatState) (content : String)
    (a : Option String) (hc : jsTrim content ≠ "") (hl : st.isLoading = false)
    (ha : st.asked = true) (hg : st.gamePrefs = [])
    (hparsed : parseGamesFromText (jsTrim content) ≠ []) :
    sendMessageFixed env st content a =
      { state := { st with
          messages := st.messages ++ [userMsgOf env content,
            { id := env.replyId, role := "assistant",
              content := gameAckText
                (if ((parseGamesFromText (jsTrim content)).map cleanGameLabel).filter
                    (fun s => s ≠ "") ≠ [] then
                  String.intercalate ", "
                    (((parseGamesFromText (jsTrim content)).map cleanGameLabel).filter
                      fun s => s ≠ "")
                else String.intercalate ", " (parseGamesFromText (jsTrim content))),
              timestamp := env.now }]
          gamePrefs := setGamePrefsVal ((parseGamesFromText (jsTrim content)).take 2)
          prefersGames := some true
          isLoading := false },
        completionCalled := false, apiRequest := none } := by
  simp only [sendMessageFixed, userMsgOf]
  rw [if_neg (by simp [hc, hl]), if_neg (by simp [ha]), if_pos ⟨ha, hg⟩,
    if_pos hparsed]
  simp [userMsgOf]

theorem sendMessageFixed_decline (env : Env) (st : ChatState) (content : String)
    (a : Option String) (hc : jsTrim content ≠ "") (hl : st.isLoading = false)
    (ha : st.asked = true) (hg : st.gamePrefs = [])
    (hparsed : parseGamesFromText (jsTrim content) = []) :
    sendMessageFixed env st content a =
      { state := { st with
          messages := st.messages ++ [userMsgOf env content,
            { id := env.replyId, role := "assistant", content := gameDeclineText,
              timestamp := env.now }]
          prefersGames := some false
          isLoading := false },
        completionCalled := false, apiRequest := none } := by
  simp only [sendMessageFixed, userMsgOf]
  rw [if_neg (by simp [hc, hl]), if_neg (by simp [ha]), if_pos ⟨ha, hg⟩,
    if_neg (by simp [hparsed])]
  simp [userMsgOf]

theorem sendMessageFixed_pass (env : Env) (st : ChatState) (content : String)
    (a : Option String) (hc : jsTrim content ≠ "") (hl : st.isLoading = false)
    (hgate : ¬(st.asked = false ∧ st.gamePrefs = [] ∧
      3 ≤ ((st.messages ++ [userMsgOf env content]).filter fun m =>
        m.role = "user").length))
    (hreply : ¬(st.asked = true ∧ st.gamePrefs = [])) :
    sendMessageFixed env st content a =
      { state := { st with
          messages := st.messages ++ [userMsgOf env content, passReply env st content a]
          isLoading := false },
        completionCalled := true, apiRequest := some (passRequest env st content a) } := by
  simp only [sendMessageFixed]
  rw [if_neg (by simp [hc, hl]), if_neg hgate, if_neg hreply]
  simp [passReply, passRequest, userMsgOf, composeSystemContentFixed]

theorem sliceLast_length_le (n : Nat) (l : List α) : (sliceLast n l).length ≤ n := by
  simp only [sliceLast, List.length_drop]
  omega

theorem sliceLast_getLast? (n : Nat) (l : List α) (hn : 0 < n) (hl : l ≠ []) :
    (sliceLast n l).getLast? = l.getLast? := by
  refine suffix_getLast?_eq (List.drop_suffix _ l) ?_
  intro he
  have hlen := congrArg List.length he
  simp only [sliceLast, List.length_drop, List.length_nil] at hlen
  have : 0 < l.length := List.length_pos.mpr hl
  omega

theorem sliceLast_subset (n : Nat) (l : List α) : ∀ a ∈ sliceLast n l, a ∈ l :=
  fun a ha => (List.drop_suffix _ l).subset ha

theorem getErrorMessage_mem (err : String) :
    getErrorMessage err ∈ (["There seems to be an authentication issue.",
      "I need to slow down a bit due to high usage.",
      "The AI service is temporarily unavailable.",
      "There seems to be a connection issue.",
      "Something unexpected happened."] : List String) := by
  unfold getErrorMessage
  split_ifs <;> simp

theorem sendMessageReal_failure (env : Env) (st : ChatState) (content : String)
    (a : Option String) (err : String) (hc : jsTrim content ≠ "")
    (henv : env.completion (buildAPIMessages st.subject st.learningStyle st.messages
      (jsTrim content) a) = ⟨none, some err⟩) (herr : err ≠ "") :
    sendMessageReal env st content a =
      { state := { st with
          messages := st.messages ++ [userMsgOf env content, errReplyOf env err]
          isLoading := false },
        completionCalled := true,
        apiRequest := some (buildAPIMessages st.subject st.learningStyle st.messages
          (jsTrim content) a) } := by
  simp only [sendMessageReal]
  rw [if_neg hc, henv]
  simp [optTruthy, herr, errReplyOf]

theorem clearMessagesFixed_lookup (st : ChatState) (store : Store) (q : String) :
    (clearMessagesFixed st store).2 q =
      if q = prefersKey ∨ q = askedKey ∨ q = prefsKey ∨ q = storageKey "english" ∨
         q = storageKey "algebra" ∨ q = storageKey st.subject then none
      else store q := by
  unfold clearMessagesFixed resetGamePrefsStore Store.remove
  by_cases h1 : q = prefersKey <;> by_cases h2 : q = askedKey <;>
    by_cases h3 : q = prefsKey <;> by_cases h4 : q = storageKey "english" <;>
    by_cases h5 : q = storageKey "algebra" <;> by_cases h6 : q = storageKey st.subject <;>
    simp [h1, h2, h3, h4, h5, h6]

/-! ## Claim theorems -/

/-- C1: when a just-submitted user message brings the user-authored count
to 3 or more while the personalization state is unresolved (status
unknown, question not yet asked, no stored preferences), the send appends
the clarifying question as exactly one assistant message after the user
message, sets the asked flag, and returns without calling the completion
endpoint. -/
theorem gate_asks_clarifying_question_once
    (env : Env) (st : ChatState) (content : String) (a : Option String)
    (hc : jsTrim content ≠ "") (hl : st.isLoading = false)
    (ha : st.asked = false) (hp : st.prefersGames = none) (hg : st.gamePrefs = [])
    (hcount : 3 ≤ ((st.messages ++ [userMsgOf env content]).filter fun m =>
      m.role = "user").length) :
    sendMessageFixed env st content a =
      { state := { st with
          messages := st.messages ++ [userMsgOf env content, askMsgOf env]
          asked := true },
        completionCalled := false, apiRequest := none } :=
  sendMessageFixed_ask env st content a hc hl ha hg hcount

/-- Witness for C1: the third user question of a fresh conversation
triggers the clarifying question and no completion call. -/
theorem gate_asks_clarifying_question_once_witness :
    (jsTrim "third question" ≠ "" ∧ stGate.isLoading = false ∧ stGate.asked = false ∧
      stGate.prefersGames = none ∧ stGate.gamePrefs = [] ∧
      3 ≤ ((stGate.messages ++ [userMsgOf envOk "third question"]).filter fun m =>
        m.role = "user").length) ∧
    sendMessageFixed envOk stGate "third question" none =
      { state := { stGate with
          messages := stGate.messages ++ [userMsgOf envOk "third question", askMsgOf envOk]
          asked := true },
        completionCalled := false, apiRequest := none } :=
  ⟨⟨by decide, rfl, rfl, rfl, rfl, by decide⟩,
   gate_asks_clarifying_question_once envOk stGate "third question" none
     (by decide) rfl rfl rfl rfl (by decide)⟩

/-- C2: in the state after the clarifying question and before resolution,
the reply "Minecraft and Roblox" resolves to accepted with stored list
`["Minecraft", "Roblox"]`, the reply "no thanks" resolves to declined with
an empty list, and any reply parsing to zero labels resolves to declined;
each case is handled locally with no completion call. -/
theorem clarifying_reply_resolved_locally
    (env : Env) (st : ChatState) (hl : st.isLoading = false)
    (ha : st.asked = true) (hp : st.prefersGames = none) (hg : st.gamePrefs = []) :
    ((sendMessageFixed env st "Minecraft and Roblox" none).state.gamePrefs =
        ["Minecraft", "Roblox"] ∧
      (sendMessageFixed env st "Minecraft and Roblox" none).state.prefersGames =
        some true ∧
      (sendMessageFixed env st "Minecraft and Roblox" none).completionCalled = false) ∧
    ((sendMessageFixed env st "no thanks" none).state.prefersGames = some false ∧
      (sendMessageFixed env st "no thanks" none).state.gamePrefs = [] ∧
      (sendMessageFixed env st "no thanks" none).completionCalled = false) ∧
    (∀ content, jsTrim content ≠ "" → parseGamesFromText (jsTrim content) = [] →
      (sendMessageFixed env st content none).state.prefersGames = some false ∧
      (sendMessageFixed env st content none).completionCalled = false) := by
  refine ⟨?_, ?_, ?_⟩
  · rw [sendMessageFixed_accept env st "Minecraft and Roblox" none (by decide) hl ha hg
      (by decide)]
    refine ⟨?_, rfl, rfl⟩
    show setGamePrefsVal ((parseGamesFromText (jsTrim "Minecraft and Roblox")).take 2) =
      ["Minecraft", "Roblox"]
    decide
  · rw [sendMessageFixed_decline env st "no thanks" none (by decide) hl ha hg (by decide)]
    exact ⟨rfl, hg, rfl⟩
  · intro content h1 h2
    rw [sendMessageFixed_decline env st content none h1 hl ha hg h2]
    exact ⟨rfl, rfl⟩

/-- Witness for C2: after the clarifying question, the reply
"Minecraft and Roblox" stores both labels. -/
theorem clarifying_reply_resolved_locally_witness :
    (stReply.isLoading = false ∧ stReply.asked = true ∧ stReply.prefersGames = none ∧
      stReply.gamePrefs = []) ∧
    (sendMessageFixed envOk stReply "Minecraft and Roblox" none).state.gamePrefs =
      ["Minecraft", "Roblox"] :=
  ⟨⟨rfl, rfl, rfl, rfl⟩,
   ((clarifying_reply_resolved_locally envOk stReply rfl rfl rfl rfl).1).1⟩

/-- C9: an input whose text trims to empty makes `sendMessage` a complete
no-op — nothing appended, loading and personalization state unchanged, no
completion call — and the gate variant is likewise a no-op while a
request is in flight. -/
theorem blank_or_inflight_send_noop :
    (∀ (env : Env) (st : ChatState) (content : String) (a : Option String),
      jsTrim content = "" ∨ st.isLoading = true →
      sendMessageFixed env st content a =
        { state := st, completionCalled := false, apiRequest := none }) ∧
    (∀ (env : Env) (st : ChatState) (content : String) (a : Option String),
      jsTrim content = "" →
      sendMessageReal env st content a =
        { state := st, completionCalled := false, apiRequest := none }) := by
  constructor
  · intro env st content a h
    unfold sendMessageFixed
    rw [if_pos h]
  · intro env st content a h
    unfold sendMessageReal
    rw [if_pos h]

/-- Witness for C9: a whitespace-only input and an in-flight send are
both no-ops. -/
theorem blank_or_inflight_send_noop_witness :
    (jsTrim "   " = "" ∨ stGate.isLoading = true) ∧
    sendMessageFixed envOk stGate "   " none =
      { state := stGate, completionCalled := false, apiRequest := none } ∧
    (stInFlight.isLoading = true ∧
      sendMessageFixed envOk stInFlight "hello" none =
        { state := stInFlight, completionCalled := false, apiRequest := none }) ∧
    sendMessageReal envOk stGate "  " none =
      { state := stGate, completionCalled := false, apiRequest := none } :=
  ⟨Or.inl (by decide),
   blank_or_inflight_send_noop.1 envOk stGate "   " none (Or.inl (by decide)),
   ⟨rfl, blank_or_inflight_send_noop.1 envOk stInFlight "hello" none (Or.inr rfl)⟩,
   blank_or_inflight_send_noop.2 envOk stGate "  " none (by decide)⟩

/-- C3 counterexample: clearing the algebra conversation through the
fixed variant's `clearMessages` removes the english subject's persisted
entry and the preference entry, so other subjects are not left
unchanged. -/
theorem clear_fixed_removes_other_subject :
    (clearMessagesFixed stPass storeTwoSubjects).2 (storageKey "english") = none ∧
    storeTwoSubjects (storageKey "english") = some (.vMsgs [(userFix "1" "hi").toStored]) ∧
    (clearMessagesFixed stPass storeTwoSubjects).2 prefsKey = none ∧
    storeTwoSubjects prefsKey = some (.vStrList ["Minecraft"]) := by
  refine ⟨by decide, by decide, by decide, by decide⟩

/-- C3 (amended): `clearMessages` of `useRealChat.js` empties the current
subject's in-memory sequence, removes exactly that subject's storage
entry and leaves every other key — other subjects' entries and the
preference entries — unchanged. The fixed variant's `clearMessages`
instead empties the sequence, removes the message entries of both known
subjects and the current one, resets the in-memory preference state and
removes the three preference entries, leaving only unrelated keys
unchanged. -/
theorem clear_scope_amended :
    (∀ (subj : String) (store : Store),
      (clearMessagesReal false subj store).1 = [] ∧
      (clearMessagesReal false subj store).2 (storageKey subj) = none ∧
      ∀ k, k ≠ storageKey subj → (clearMessagesReal false subj store).2 k = store k) ∧
    (∀ (st : ChatState) (store : Store),
      (clearMessagesFixed st store).1.messages = [] ∧
      (clearMessagesFixed st store).1.gamePrefs = [] ∧
      (clearMessagesFixed st store).1.asked = false ∧
      (clearMessagesFixed st store).1.prefersGames = none ∧
      (clearMessagesFixed st store).2 (storageKey st.subject) = none ∧
      (clearMessagesFixed st store).2 (storageKey "algebra") = none ∧
      (clearMessagesFixed st store).2 (storageKey "english") = none ∧
      (clearMessagesFixed st store).2 prefsKey = none ∧
      (clearMessagesFixed st store).2 askedKey = none ∧
      (clearMessagesFixed st store).2 prefersKey = none ∧
      ∀ k, k ≠ storageKey st.subject → k ≠ storageKey "algebra" →
        k ≠ storageKey "english" → k ≠ prefsKey → k ≠ askedKey → k ≠ prefersKey →
        (clearMessagesFixed st store).2 k = store k) := by
  constructor
  · intro subj store
    refine ⟨rfl, ?_, ?_⟩
    · show (store.remove (storageKey subj)) (storageKey subj) = none
      simp [Store.remove]
    · intro k hk
      show (store.remove (storageKey subj)) k = store k
      simp [Store.remove, hk]
  · intro st store
    refine ⟨rfl, rfl, rfl, rfl, ?_, ?_, ?_, ?_, ?_, ?_, ?_⟩
    · rw [clearMessagesFixed_lookup]
      exact if_pos (by tauto)
    · rw [clearMessagesFixed_lookup]
      exact if_pos (by tauto)
    · rw [clearMessagesFixed_lookup]
      exact if_pos (by tauto)
    · rw [clearMessagesFixed_lookup]
      exact if_pos (by tauto)
    · rw [clearMessagesFixed_lookup]
      exact if_pos (by tauto)
    · rw [clearMessagesFixed_lookup]
      exact if_pos (by tauto)
    · intro k h1 h2 h3 h4 h5 h6
      rw [clearMessagesFixed_lookup]
      exact if_neg (by simp [h1, h2, h3, h4, h5, h6])

/-- Witness for C3 (amended): clearing english through the useRealChat
variant leaves the algebra entry and the preference entry alone. -/
theorem clear_scope_amended_witness :
    ((clearMessagesReal false "english" storeTwoSubjects).1 = [] ∧
      (clearMessagesReal false "english" storeTwoSubjects).2 (storageKey "english") = none) ∧
    (storageKey "algebra" ≠ storageKey "english" ∧
      (clearMessagesReal false "english" storeTwoSubjects).2 (storageKey "algebra") =
        storeTwoSubjects (storageKey "algebra")) ∧
    (clearMessagesFixed stPass storeTwoSubjects).2 prefsKey = none :=
  ⟨⟨(clear_scope_amended.1 "english" storeTwoSubjects).1,
    (clear_scope_amended.1 "english" storeTwoSubjects).2.1⟩,
   ⟨by decide,
    (clear_scope_amended.1 "english" storeTwoSubjects).2.2 (storageKey "algebra") (by decide)⟩,
   (clear_scope_amended.2 stPass storeTwoSubjects).2.2.2.2.2.2.2.1⟩

/-- C4: for every subject and every nonempty sequence of messages with
in-range timestamps, loading after persisting returns exactly the
persisted sequence — the ISO-8601 text round trip restores every
timestamp to the millisecond — and loading a fresh store gives the empty
sequence. -/
theorem load_after_save_roundtrip :
    (∀ (subj : String) (msgs : List Message) (store : Store),
      msgs ≠ [] → (∀ m ∈ msgs, m.timestamp.valid) →
      loadMessagesForSubject subj (saveMessagesForSubject false subj msgs store) =
        (msgs, saveMessagesForSubject false subj msgs store)) ∧
    (∀ subj : String, loadMessagesForSubject subj Store.empty = ([], Store.empty)) := by
  constructor
  · intro subj msgs store hne hval
    have hlen : ¬ msgs.length = 0 := by simpa using hne
    have hsave : saveMessagesForSubject false subj msgs store =
        Store.set store (storageKey subj) (.vMsgs (msgs.map Message.toStored)) := by
      unfold saveMessagesForSubject
      rw [if_neg hlen, if_neg Bool.false_ne_true]
    rw [hsave]
    have hlook : (Store.set store (storageKey subj)
        (.vMsgs (msgs.map Message.toStored))) (storageKey subj) =
        some (.vMsgs (msgs.map Message.toStored)) := by
      simp [Store.set]
    unfold loadMessagesForSubject
    rw [hlook]
    simp only [Prod.mk.injEq, and_true]
    rw [List.map_map]
    have hmap : msgs.map (StoredMessage.restore ∘ Message.toStored) = msgs.map id :=
      List.map_congr_left fun m hm => restore_toStored m (hval m hm)
    rw [hmap, List.map_id]
  · intro subj
    rfl

/-- Witness for C4: one saved message round-trips. -/
theorem load_after_save_roundtrip_witness :
    (([userFix "1" "hello"] : List Message) ≠ [] ∧
      (∀ m ∈ ([userFix "1" "hello"] : List Message), m.timestamp.valid)) ∧
    loadMessagesForSubject "algebra"
        (saveMessagesForSubject false "algebra" [userFix "1" "hello"] Store.empty) =
      ([userFix "1" "hello"],
        saveMessagesForSubject false "algebra" [userFix "1" "hello"] Store.empty) :=
  ⟨⟨by decide, by decide⟩,
   load_after_save_roundtrip.1 "algebra" [userFix "1" "hello"] Store.empty
     (by decide) (by decide)⟩

/-- C8: loading returns the persisted sequence; an absent entry loads as
empty; an entry whose text fails to parse, or parses to a non-array
value so that the restore map throws, loads as empty and the corrupt
entry is removed rather than surfaced; an entry parsing as an array of
plain strings is mapped without throwing, so a field-less record list is
returned and nothing is removed; a storage write failure during save is
a no-op; a storage failure during clear still empties the sequence and
leaves the store as it was. None of these operations signal an error to
the caller. -/
theorem load_and_failure_policy :
    (∀ (subj : String) (store : Store), store (storageKey subj) = none →
      loadMessagesForSubject subj store = ([], store)) ∧
    (∀ (subj : String) (store : Store) (l : List StoredMessage),
      store (storageKey subj) = some (.vMsgs l) →
      loadMessagesForSubject subj store = (l.map StoredMessage.restore, store)) ∧
    (∀ (subj : String) (store : Store) (s : String),
      store (storageKey subj) = some (.vStr s) →
      loadMessagesForSubject subj store = ([], store.remove (storageKey subj))) ∧
    (∀ (subj : String) (store : Store),
      store (storageKey subj) = some .vCorrupt →
      loadMessagesForSubject subj store = ([], store.remove (storageKey subj))) ∧
    (∀ (subj : String) (store : Store) (ss : List String),
      store (storageKey subj) = some (.vStrList ss) →
      loadMessagesForSubject subj store = (ss.map spreadStringMsg, store)) ∧
    (∀ (subj : String) (msgs : List Message) (store : Store),
      saveMessagesForSubject true subj msgs store = store) ∧
    (∀ (subj : String) (store : Store),
      clearMessagesReal true subj store = ([], store)) := by
  refine ⟨?_, ?_, ?_, ?_, ?_, ?_, ?_⟩
  · intro subj store h
    unfold loadMessagesForSubject
    rw [h]
  · intro subj store l h
    unfold loadMessagesForSubject
    rw [h]
  · intro subj store s h
    unfold loadMessagesForSubject
    rw [h]
  · intro subj store h
    unfold loadMessagesForSubject
    rw [h]
  · intro subj store ss h
    unfold loadMessagesForSubject
    rw [h]
  · intro subj msgs store
    unfold saveMessagesForSubject
    split
    · rfl
    · rfl
  · intro subj store
    rfl

/-- Witness for C8: an empty store loads as empty, a failing save is a
no-op, and an unparseable entry loads as empty with the entry
discarded. -/
theorem load_and_failure_policy_witness :
    (Store.empty (storageKey "algebra") = none ∧
      loadMessagesForSubject "algebra" Store.empty = ([], Store.empty)) ∧
    saveMessagesForSubject true "algebra" [userFix "1" "hi"] Store.empty = Store.empty ∧
    (storeCorrupt (storageKey "algebra") = some .vCorrupt ∧
      loadMessagesForSubject "algebra" storeCorrupt =
        ([], storeCorrupt.remove (storageKey "algebra"))) :=
  ⟨⟨rfl, load_and_failure_policy.1 "algebra" Store.empty rfl⟩,
   load_and_failure_policy.2.2.2.2.2.1 "algebra" [userFix "1" "hi"] Store.empty,
   ⟨by decide,
    load_and_failure_policy.2.2.2.1 "algebra" storeCorrupt (by decide)⟩⟩

/-- C5 counterexample: on a pass-through turn of the fixed gate variant,
the request sent to the completion endpoint contains the locally
generated clarifying question — it is not excluded from the last-10
context window. -/
theorem request_contains_clarifying_question :
    (sendMessageFixed envOk stPass "help with ratios" none).completionCalled = true ∧
    (⟨"assistant", gameAskText⟩ : ApiMessage) ∈
      ((sendMessageFixed envOk stPass "help with ratios" none).apiRequest.getD []) := by
  refine ⟨by decide, by decide⟩

/-- C5 (amended): every pass-through request consists of exactly one
leading system instruction followed by at most the last 10 conversation
messages ending with the just-submitted user message (non-system-role
messages only in the useRealChat variant, where the new user content is
appended after up to 10 history messages); the locally generated
clarifying question and its reply are not excluded and are sent whenever
they fall inside that window. -/
theorem completion_request_shape_amended :
    (∀ (env : Env) (st : ChatState) (content : String) (a : Option String),
      jsTrim content ≠ "" → st.isLoading = false →
      ¬(st.asked = false ∧ st.gamePrefs = [] ∧
        3 ≤ ((st.messages ++ [userMsgOf env content]).filter fun m =>
          m.role = "user").length) →
      ¬(st.asked = true ∧ st.gamePrefs = []) →
      (∀ m ∈ st.messages, m.role = "user" ∨ m.role = "assistant") →
      ∃ ctx, (sendMessageFixed env st content a).apiRequest =
          some (⟨"system", composeSystemContentFixed st.subject a st.learningStyle
            st.gamePrefs (jsTrim content)⟩ :: ctx) ∧
        ctx = (sliceLast 10 (st.messages ++ [userMsgOf env content])).map Message.toApi ∧
        ctx.length ≤ 10 ∧
        ctx.getLast? = some ⟨"user", jsTrim content⟩ ∧
        ∀ x ∈ ctx, x.role = "user" ∨ x.role = "assistant") ∧
    (∀ (subject learningStyle : String) (messages : List Message) (newContent : String)
        (a : Option String),
      ∃ sys ctx, buildAPIMessages subject learningStyle messages newContent a =
          sys :: (ctx ++ [⟨"user", newContent⟩]) ∧
        sys.role = "system" ∧
        ctx = (sliceLast 10 (messages.filter fun m => m.role ≠ "system")).map
          Message.toApi ∧
        ctx.length ≤ 10 ∧
        (∀ x ∈ ctx, x.role ≠ "system") ∧
        (buildAPIMessages subject learningStyle messages newContent a).getLast? =
          some ⟨"user", newContent⟩) := by
  constructor
  · intro env st content a hc hl hgate hreply hroles
    rw [sendMessageFixed_pass env st content a hc hl hgate hreply]
    refine ⟨_, rfl, rfl, ?_, ?_, ?_⟩
    · rw [List.length_map]
      exact sliceLast_length_le 10 _
    · rw [List.getLast?_map]
      rw [sliceLast_getLast? 10 _ (by omega) (by simp)]
      rw [List.getLast?_concat]
      rfl
    · intro x hx
      obtain ⟨m, hm, rfl⟩ := List.mem_map.mp hx
      have hm2 := sliceLast_subset 10 _ m hm
      rw [List.mem_append] at hm2
      rcases hm2 with hm2 | hm2
      · exact hroles m hm2
      · simp only [List.mem_singleton] at hm2
        subst hm2
        left
        rfl
  · intro subject learningStyle messages newContent a
    refine ⟨_, _, rfl, rfl, rfl, ?_, ?_, ?_⟩
    · rw [List.length_map]
      exact sliceLast_length_le 10 _
    · intro x hx
      obtain ⟨m, hm, rfl⟩ := List.mem_map.mp hx
      have hm2 := sliceLast_subset 10 _ m hm
      have hm3 := (List.mem_filter.mp hm2).2
      simpa using hm3
    · show (ApiMessage.mk "system" _ :: (_ ++ [ApiMessage.mk "user" newContent])).getLast? = _
      rw [← List.cons_append, List.getLast?_concat]

/-- Witness for C5 (amended): the pass-through request of an early
unresolved turn (first user message, nothing asked yet) has the
system-then-context shape. -/
theorem completion_request_shape_amended_witness :
    (jsTrim "help me" ≠ "" ∧ stEmpty.isLoading = false ∧
      ¬(stEmpty.asked = false ∧ stEmpty.gamePrefs = [] ∧
        3 ≤ ((stEmpty.messages ++ [userMsgOf envOk "help me"]).filter fun m =>
          m.role = "user").length) ∧
      ¬(stEmpty.asked = true ∧ stEmpty.gamePrefs = []) ∧
      (∀ m ∈ stEmpty.messages, m.role = "user" ∨ m.role = "assistant")) ∧
    (∃ ctx, (sendMessageFixed envOk stEmpty "help me" none).apiRequest =
        some (⟨"system", composeSystemContentFixed stEmpty.subject none
          stEmpty.learningStyle stEmpty.gamePrefs (jsTrim "help me")⟩ :: ctx) ∧
      ctx = (sliceLast 10 (stEmpty.messages ++ [userMsgOf envOk "help me"])).map
        Message.toApi ∧
      ctx.length ≤ 10 ∧
      ctx.getLast? = some ⟨"user", jsTrim "help me"⟩ ∧
      ∀ x ∈ ctx, x.role = "user" ∨ x.role = "assistant") :=
  ⟨⟨by decide, rfl, by decide, by decide, by decide⟩,
   completion_request_shape_amended.1 envOk stEmpty "help me" none (by decide) rfl
     (by decide) (by decide) (by decide)⟩

/-- C6 counterexample: on a completion failure in `useRealChat.js`,
exactly one assistant message is appended but it is not flagged as an
error — its error field is false. -/
theorem completion_failure_message_not_flagged :
    ((sendMessageReal envFail stEmpty "hi" none).state.messages.map fun m =>
      (m.role, m.error)) = [("user", false), ("assistant", false)] ∧
    (sendMessageReal envFail stEmpty "hi" none).completionCalled = true := by
  refine ⟨by decide, by decide⟩

/-- C6 (amended): on a completion failure response, `useRealChat.js`
appends exactly one assistant message whose content is a short
user-facing category message — one of five fixed strings chosen from the
error's category, never the raw error text — but with no error flag set,
and the loading indicator is cleared; the fixed variant instead appends
one unflagged assistant message carrying the per-style fallback text. -/
theorem completion_failure_handling_amended :
    (∀ (env : Env) (st : ChatState) (content : String) (a : Option String)
        (err : String),
      jsTrim content ≠ "" →
      env.completion (buildAPIMessages st.subject st.learningStyle st.messages
        (jsTrim content) a) = ⟨none, some err⟩ →
      err ≠ "" →
      (sendMessageReal env st content a).state.messages =
        st.messages ++ [userMsgOf env content, errReplyOf env err] ∧
      (errReplyOf env err).role = "assistant" ∧
      (errReplyOf env err).error = false ∧
      (errReplyOf env err).content = "I'm having trouble connecting right now. " ++
        getErrorMessage err ++
        " Let me try to help you anyway - could you rephrase your question?" ∧
      getErrorMessage err ∈ (["There seems to be an authentication issue.",
        "I need to slow down a bit due to high usage.",
        "The AI service is temporarily unavailable.",
        "There seems to be a connection issue.",
        "Something unexpected happened."] : List String) ∧
      (sendMessageReal env st content a).state.isLoading = false) ∧
    (∀ (env : Env) (st : ChatState) (content : String) (a : Option String)
        (err : String),
      jsTrim content ≠ "" → st.isLoading = false →
      ¬(st.asked = false ∧ st.gamePrefs = [] ∧
        3 ≤ ((st.messages ++ [userMsgOf env content]).filter fun m =>
          m.role = "user").length) →
      ¬(st.asked = true ∧ st.gamePrefs = []) →
      env.completion (passRequest env st content a) = ⟨none, some err⟩ →
      (sendMessageFixed env st content a).state.messages =
        st.messages ++ [userMsgOf env content,
          { id := env.aiId, role := "assistant",
            content := fallbackResponse st.learningStyle content st.subject,
            timestamp := env.now, learningStyle := some st.learningStyle,
            model := some "gpt-4o-mini" }] ∧
      (sendMessageFixed env st content a).state.isLoading = false) := by
  constructor
  · intro env st content a err hc henv herr
    rw [sendMessageReal_failure env st content a err hc henv herr]
    exact ⟨rfl, rfl, rfl, rfl, getErrorMessage_mem err, rfl⟩
  · intro env st content a err hc hl hgate hreply henv
    rw [sendMessageFixed_pass env st content a hc hl hgate hreply]
    constructor
    · show st.messages ++ [userMsgOf env content, passReply env st content a] = _
      rw [passReply, henv]
      rfl
    · rfl

/-- Witness for C6 (amended): a 401 failure appends the authentication
category message without the error flag in the useRealChat variant, and
the per-style fallback message in the fixed variant on an early
unresolved turn. -/
theorem completion_failure_handling_amended_witness :
    (jsTrim "hi" ≠ "" ∧
      envFail.completion (buildAPIMessages stEmpty.subject stEmpty.learningStyle
        stEmpty.messages (jsTrim "hi") none) =
        ⟨none, some "Error 401: Invalid API key"⟩ ∧
      ("Error 401: Invalid API key" : String) ≠ "") ∧
    ((sendMessageReal envFail stEmpty "hi" none).state.messages =
      stEmpty.messages ++ [userMsgOf envFail "hi",
        errReplyOf envFail "Error 401: Invalid API key"] ∧
     (errReplyOf envFail "Error 401: Invalid API key").error = false) ∧
    (sendMessageFixed envFail stEmpty "hi" none).state.messages =
      stEmpty.messages ++ [userMsgOf envFail "hi",
        { id := envFail.aiId, role := "assistant",
          content := fallbackResponse stEmpty.learningStyle "hi" stEmpty.subject,
          timestamp := envFail.now, learningStyle := some stEmpty.learningStyle,
          model := some "gpt-4o-mini" }] :=
  ⟨⟨by decide, rfl, by decide⟩,
   ⟨(completion_failure_handling_amended.1 envFail stEmpty "hi" none
      "Error 401: Invalid API key" (by decide) rfl (by decide)).1,
    (completion_failure_handling_amended.1 envFail stEmpty "hi" none
      "Error 401: Invalid API key" (by decide) rfl (by decide)).2.2.1⟩,
   (completion_failure_handling_amended.2 envFail stEmpty "hi" none
      "Error 401: Invalid API key" (by decide) rfl (by decide) (by decide) rfl).1⟩

/-- C7: prompt composition is deterministic and depends only on the
subject, action type, learning style, preference status and list, and
the latest message text — two sends from different histories, flags,
clocks and completion oracles with identical composition inputs produce
the identical leading system instruction, and its value is the pure
function `composeSystemContentFixed` of those inputs. -/
theorem prompt_composition_deterministic
    (env₁ env₂ : Env) (st₁ st₂ : ChatState) (content : String) (a : Option String)
    (hc : jsTrim content ≠ "") (hl₁ : st₁.isLoading = false) (hl₂ : st₂.isLoading = false)
    (ha₁ : st₁.asked = true) (ha₂ : st₂.asked = true) (hg₁ : st₁.gamePrefs ≠ [])
    (hsub : st₁.subject = st₂.subject) (hls : st₁.learningStyle = st₂.learningStyle)
    (hgp : st₁.gamePrefs = st₂.gamePrefs) (hps : st₁.prefersGames = st₂.prefersGames) :
    ((sendMessageFixed env₁ st₁ content a).apiRequest.map fun r => r.headD ⟨"", ""⟩) =
      ((sendMessageFixed env₂ st₂ content a).apiRequest.map fun r => r.headD ⟨"", ""⟩) ∧
    ((sendMessageFixed env₁ st₁ content a).apiRequest.map fun r => r.headD ⟨"", ""⟩) =
      some ⟨"system", composeSystemContentFixed st₁.subject a st₁.learningStyle
        st₁.gamePrefs (jsTrim content)⟩ := by
  have hg₂ : st₂.gamePrefs ≠ [] := hgp ▸ hg₁
  rw [sendMessageFixed_pass env₁ st₁ content a hc hl₁ (by simp [ha₁])
      (by simp [ha₁, hg₁]),
    sendMessageFixed_pass env₂ st₂ content a hc hl₂ (by simp [ha₂])
      (by simp [ha₂, hg₂])]
  simp only [Option.map_some, passRequest, List.headD_cons]
  rw [hsub, hls, hgp]
  exact ⟨rfl, rfl⟩

/-- Witness for C7: two conversations with different histories, flags and
completion oracles but the same composition inputs get the same system
instruction. -/
theorem prompt_composition_deterministic_witness :
    (jsTrim "what is slope" ≠ "" ∧ stPass.isLoading = false ∧
      stPassOther.isLoading = false ∧ stPass.asked = true ∧ stPassOther.asked = true ∧
      stPass.gamePrefs ≠ [] ∧ stPass.subject = stPassOther.subject ∧
      stPass.learningStyle = stPassOther.learningStyle ∧
      stPass.gamePrefs = stPassOther.gamePrefs ∧
      stPass.prefersGames = stPassOther.prefersGames) ∧
    ((sendMessageFixed envOk stPass "what is slope" none).apiRequest.map fun r =>
      r.headD ⟨"", ""⟩) =
      ((sendMessageFixed envFail stPassOther "what is slope" none).apiRequest.map fun r =>
        r.headD ⟨"", ""⟩) :=
  ⟨⟨by decide, rfl, rfl, rfl, rfl, by decide, rfl, rfl, by decide, rfl⟩,
   (prompt_composition_deterministic envOk envFail stPass stPassOther "what is slope"
     none (by decide) rfl rfl rfl rfl (by decide) rfl rfl (by decide) rfl).1⟩

/-- C10: every preference-store operation preserves the invariant that
the stored list holds at most two trimmed, non-empty, duplicate-free
labels: `setGamePrefs` dedupes, drops blanks and truncates before
storing, `parseGamesFromText` yields at most two non-empty spans, and
`resetGamePrefs` restores the initial state in memory and removes the
three storage entries. -/
theorem preference_store_invariant :
    (∀ (arr : List String) (store : Store),
      prefListInv (setGamePrefs arr store).1 ∧
      (setGamePrefs arr store).2 prefsKey = some (.vStrList (setGamePrefsVal arr))) ∧
    (∀ text : String, (parseGamesFromText text).length ≤ 2 ∧
      ∀ s ∈ parseGamesFromText text, s ≠ "") ∧
    (∀ store : Store,
      (resetGamePrefs store).1 = ([], false, none) ∧
      (resetGamePrefs store).2 prefsKey = none ∧
      (resetGamePrefs store).2 askedKey = none ∧
      (resetGamePrefs store).2 prefersKey = none) := by
  refine ⟨?_, ?_, ?_⟩
  · intro arr store
    exact ⟨setGamePrefsVal_inv arr, by simp [setGamePrefs, Store.set]⟩
  · intro text
    exact ⟨parseGamesFromText_length text, parseGamesFromText_mem_ne text⟩
  · intro store
    refine ⟨rfl, ?_, ?_, ?_⟩ <;>
      simp [resetGamePrefs, resetGamePrefsStore, Store.remove, prefsKey, askedKey,
        prefersKey]

/-- Witness for C10: a concrete mixed input is stored deduplicated,
trimmed and truncated, a parsed label is non-empty, and a reset restores
the initial in-memory state. -/
theorem preference_store_invariant_witness :
    prefListInv (setGamePrefs [" Minecraft ", "Minecraft", "", "Roblox", "Zelda"]
      Store.empty).1 ∧
    ("Minecraft" ∈ parseGamesFromText "Minecraft and Roblox" ∧
      ("Minecraft" : String) ≠ "") ∧
    (resetGamePrefs Store.empty).1 = ([], false, none) :=
  ⟨(preference_store_invariant.1 [" Minecraft ", "Minecraft", "", "Roblox", "Zelda"]
      Store.empty).1,
   ⟨by decide, (preference_store_invariant.2.1 "Minecraft and Roblox").2 "Minecraft"
      (by decide)⟩,
   (preference_store_invariant.2.2 Store.empty).1⟩

end Sveti
